import Mathlib

/-!
Verification of the R307 fingerprint serial-protocol layer of this repository.

The Python classes R307FingerprintSensor (scan.py), R307FingerMatcher
(backend/finger/match/finger_match.py), R307FingerCapture
(backend/finger/capture/finger_capture.py) and R307RealTimeMatcher
(test/real_time_match.py) share byte-identical copies of the packet codec
(_write_packet / _read_packet) and of the template-transfer and capture/match
workflow loops.  This file embeds those functions over lists of natural
numbers (one Nat per byte; a Python bytes value b is the list of its byte
values) and proves or refutes the specified properties.

Modelling conventions:
- serial input is a finite list of bytes; serial.read(n) returns the first
  min(n, available) bytes (a short read models the 2 s timeout expiring);
- struct.pack(">H", x) / (">I", x) / (">B", x) raise struct.error when x
  does not fit the field, so _write_packet is modelled as an Option;
- _read_packet returns the Python tuple (None, None) on every framing
  failure; that tuple is modelled as none, and a successful (packet_type,
  data) tuple as some (packet_type, data);
- time.sleep and print have no observable effect in the model and are
  dropped; the serial handle open/close calls are likewise I/O only.
-/

namespace Biometric

/-! Class constants, identical in all four classes. -/

def FINGERPRINT_STARTCODE : Nat := 0xEF01
def FINGERPRINT_COMMANDPACKET : Nat := 0x01
def FINGERPRINT_DATAPACKET : Nat := 0x02
def FINGERPRINT_ACKPACKET : Nat := 0x07
def FINGERPRINT_ENDDATAPACKET : Nat := 0x08

def FINGERPRINT_OK : Nat := 0x00
def FINGERPRINT_PACKETRECIEVEERR : Nat := 0x01
def FINGERPRINT_NOFINGER : Nat := 0x02
def FINGERPRINT_IMAGEFAIL : Nat := 0x03
def FINGERPRINT_IMAGEMESS : Nat := 0x06
def FINGERPRINT_FEATUREFAIL : Nat := 0x07
def FINGERPRINT_NOMATCH : Nat := 0x08
def FINGERPRINT_INVALIDIMAGE : Nat := 0x15

def CMD_GET_IMAGE : Nat := 0x01
def CMD_IMG_2_TZ : Nat := 0x02
def CMD_MATCH : Nat := 0x03
def CMD_UP_CHAR : Nat := 0x08
def CMD_DOWN_CHAR : Nat := 0x09

/-- Default device address: the `address=0xFFFFFFFF` argument of
`__init__` in every sensor class. -/
def defaultAddress : Nat := 0xFFFFFFFF

/-- struct.pack(">H", n): two big-endian bytes.  Only used on values the
caller has checked to be below 65536 (struct.error otherwise, see
`writePacket`). -/
def pack2 (n : Nat) : List Nat := [n / 256, n % 256]

/-- struct.pack(">I", n): four big-endian bytes, for n below 2^32. -/
def pack4 (n : Nat) : List Nat :=
  [n / 16777216, n / 65536 % 256, n / 256 % 256, n % 256]

/-- struct.unpack(">H", bytes([a, b])): the big-endian value of two bytes. -/
def be2 (a b : Nat) : Nat := 256 * a + b

/-- `_write_packet(packet_type, data)` (scan.py lines 73-85 and the identical
copies): the byte sequence written to the serial port, namely start code,
address, packet type, length field `len(data) + 2`, data, and the trailing
checksum `packet_type + len(data) + 2 + sum(data)` packed with
struct.pack(">H").  struct.pack raises struct.error when a value exceeds its
field width — ">I" needs address < 2^32, ">B" needs packet_type < 256, and
both ">H" fields need their value < 65536 — modelled by returning `none`.
Note the code does NOT reduce the checksum mod 65536 before packing. -/
def writePacket (address packet_type : Nat) (data : List Nat) :
    Option (List Nat) :=
  if address < 4294967296 ∧ packet_type < 256 ∧ data.length + 2 < 65536 ∧
      packet_type + (data.length + 2) + data.sum < 65536 then
    some (pack2 FINGERPRINT_STARTCODE ++ pack4 address ++ [packet_type] ++
      pack2 (data.length + 2) ++ data ++
      pack2 (packet_type + (data.length + 2) + data.sum))
  else none

/-- `_read_packet` (scan.py lines 87-121 and the identical copies), over a
byte stream.  Returns the (packet_type, data) result together with the
unconsumed remainder of the stream.  Mirrors the source exactly:
- read 2 header bytes, fail on short read or wrong start code;
- read 4 address bytes, checking only that 4 bytes arrived — the address
  value is never compared with anything;
- read 1 packet-identifier byte and 2 length bytes;
- read `packet_len` bytes and fail on a short read;
- `data = data_and_checksum[:-2]`: the trailing two checksum bytes are
  stripped and discarded without any verification.
On a failure the serial reads have consumed everything that was available,
so the remainder is what follows the bytes already taken. -/
def readPacket : List Nat → Option (Nat × List Nat) × List Nat
  | b0 :: b1 :: s =>
    if be2 b0 b1 = FINGERPRINT_STARTCODE then
      match s with
      | _ :: _ :: _ :: _ :: packet_type :: l0 :: l1 :: s9 =>
        let packet_len := be2 l0 l1
        let dc := s9.take packet_len
        if dc.length = packet_len then
          (some (packet_type, dc.take (dc.length - 2)), s9.drop packet_len)
        else (none, s9.drop packet_len)
      | _ => (none, [])
    else (none, s)
  | _ => (none, [])

/-- Core framing fact: `_read_packet` on a stream that starts with the
start code, any 4 address bytes, a packet type, two length bytes whose
big-endian value is `len(payload) + 2`, the payload and any two trailing
bytes, returns the packet type and payload and leaves the rest of the
stream.  The address bytes and the two trailing (checksum) bytes are
arbitrary because the source never inspects them. -/
theorem readPacket_frame_core (a0 a1 a2 a3 packet_type l0 l1 c0 c1 : Nat)
    (payload rest : List Nat) (hl : be2 l0 l1 = payload.length + 2) :
    readPacket (0xEF :: 0x01 :: a0 :: a1 :: a2 :: a3 :: packet_type ::
        l0 :: l1 :: (payload ++ c0 :: c1 :: rest))
      = (some (packet_type, payload), rest) := by
  have hassoc : payload ++ c0 :: c1 :: rest = (payload ++ [c0, c1]) ++ rest := by
    simp
  have hlen2 : (payload ++ [c0, c1]).length = payload.length + 2 := by simp
  simp only [readPacket]
  rw [if_pos (by norm_num [be2, FINGERPRINT_STARTCODE])]
  rw [hl, hassoc, List.take_left' hlen2, hlen2, List.drop_left' hlen2]
  rw [if_pos rfl, Nat.add_sub_cancel, List.take_left' rfl]

/-- `readPacket_frame_core` with the length field actually produced by
`_write_packet`, namely struct.pack(">H", len(payload) + 2). -/
theorem readPacket_frame (a0 a1 a2 a3 packet_type c0 c1 : Nat)
    (payload rest : List Nat) :
    readPacket (0xEF :: 0x01 :: a0 :: a1 :: a2 :: a3 :: packet_type ::
        pack2 (payload.length + 2) ++ payload ++ c0 :: c1 :: rest)
      = (some (packet_type, payload), rest) := by
  have := readPacket_frame_core a0 a1 a2 a3 packet_type
    ((payload.length + 2) / 256) ((payload.length + 2) % 256) c0 c1
    payload rest (by simpa [be2] using Nat.div_add_mod (payload.length + 2) 256)
  simpa [pack2, List.cons_append, List.nil_append] using this

/-! ## Template transfer protocol -/

/-- The `expected_size = 512` constant of `capture_and_get_template`
(finger_match.py line 280); the only template-size constant in the
repository, playing the role of the EXPECTED_TEMPLATE_SIZE of the spec. -/
def EXPECTED_TEMPLATE_SIZE : Nat := 512

/-- The chunking while-loop of `download_template` (finger_match.py lines
151-169, identical in real_time_match.py): emits the list of
(packet_type, chunk) frames written after the Ack.  The loop advances by
128-byte chunks; the chunk whose end reaches len(template_data) is written
with FINGERPRINT_ENDDATAPACKET, every earlier one with
FINGERPRINT_DATAPACKET.  An empty template never enters the loop body.
The fuel argument only bounds the recursion; one chunk consumes at least
one byte, so fuel = length of the remaining data always suffices
(see `chunkLoop`). -/
def chunkGo : Nat → List Nat → List (Nat × List Nat)
  | 0, _ => []
  | fuel + 1, t =>
    if t = [] then []
    else if t.length ≤ 128 then [(FINGERPRINT_ENDDATAPACKET, t)]
    else (FINGERPRINT_DATAPACKET, t.take 128) :: chunkGo fuel (t.drop 128)

/-- The frames written by the chunking loop of `download_template` for a
given template buffer. -/
def chunkLoop (template_data : List Nat) : List (Nat × List Nat) :=
  chunkGo template_data.length template_data

/-- `download_template(template_data, buffer_id)` (finger_match.py lines
138-169) after the DownloadTemplate command was written: interprets the one
Ack read by `_read_packet`, and on success emits the chunk frames and
returns True.  On a failed Ack it returns False having written nothing. -/
def download_template (ack : Option (Nat × List Nat))
    (template_data : List Nat) : List (Nat × List Nat) × Bool :=
  match ack with
  | some (packet_type, data) =>
    if packet_type = FINGERPRINT_ACKPACKET ∧ data ≠ [] ∧
        data.headD 0 = FINGERPRINT_OK then
      (chunkLoop template_data, true)
    else ([], false)
  | none => ([], false)

/-- The accumulation while-loop of `upload_template` (scan.py lines
177-187): reads packets, appending Data payloads, stopping with success at
an EndOfData payload, and returning None on any other packet type.  The
response list is the sequence of `_read_packet` results; when it is
exhausted the serial timeout makes `_read_packet` yield (None, None),
which falls into the unexpected-packet branch and returns None. -/
def uploadLoop : List (Option (Nat × List Nat)) → List Nat → Option (List Nat)
  | [], _ => none
  | r :: rs, acc =>
    match r with
    | some (packet_type, data) =>
      if packet_type = FINGERPRINT_DATAPACKET then uploadLoop rs (acc ++ data)
      else if packet_type = FINGERPRINT_ENDDATAPACKET then some (acc ++ data)
      else none
    | none => none

/-- `upload_template(buffer_id)` (scan.py lines 166-191) after the
UploadTemplate command was written: the first `_read_packet` result is the
Ack; a non-Ack type, empty payload or non-Ok status aborts with None,
otherwise the data packets are accumulated by `uploadLoop`.  The returned
template is exactly the concatenation of the received payloads — there is
no padding or truncation anywhere in this function. -/
def upload_template (responses : List (Option (Nat × List Nat))) :
    Option (List Nat) :=
  match responses with
  | [] => none
  | ack :: rest =>
    match ack with
    | some (packet_type, data) =>
      if packet_type = FINGERPRINT_ACKPACKET ∧ data ≠ [] ∧
          data.headD 0 = FINGERPRINT_OK then uploadLoop rest []
      else none
    | none => none

/-- The size normalization inside `capture_and_get_template`
(finger_match.py lines 292-297), the only pad/truncate logic in the
repository: truncate above `expected_size`, zero-pad below it.  It is
applied there only to accumulations of at least 200 bytes, and never inside
`upload_template` or `download_template`. -/
def normalizeTemplate (t : List Nat) : List Nat :=
  if EXPECTED_TEMPLATE_SIZE < t.length then t.take EXPECTED_TEMPLATE_SIZE
  else if t.length < EXPECTED_TEMPLATE_SIZE then
    t ++ List.replicate (EXPECTED_TEMPLATE_SIZE - t.length) 0
  else t

/-- With enough fuel, the chunking loop reproduces the template verbatim:
the concatenation of all chunk payloads is the input buffer. -/
theorem chunkGo_join (fuel : Nat) :
    ∀ t : List Nat, t.length ≤ fuel →
      ((chunkGo fuel t).map Prod.snd).flatten = t := by
  induction fuel with
  | zero =>
    intro t ht
    have : t = [] := List.eq_nil_of_length_eq_zero (Nat.le_zero.mp ht)
    subst this
    rfl
  | succ fuel ih =>
    intro t ht
    by_cases h0 : t = []
    · subst h0; rfl
    · by_cases h128 : t.length ≤ 128
      · simp [chunkGo, h0, h128]
      · have hdrop : (t.drop 128).length ≤ fuel := by
          simp only [List.length_drop]; omega
        simp only [chunkGo, if_neg h0, if_neg h128, List.map_cons,
          List.flatten_cons, ih (t.drop 128) hdrop]
        exact List.take_append_drop 128 t

/-- The chunk frames of `download_template` carry the template verbatim. -/
theorem chunkLoop_join (t : List Nat) :
    ((chunkLoop t).map Prod.snd).flatten = t :=
  chunkGo_join t.length t le_rfl

/-! ## Command/response interpreters

Each sensor operation writes one command packet and interprets the
(packet_type, data) pair returned by the next `_read_packet` call.  The
workflow models below take the `_read_packet` results as a function from
the index of the read call to its result; this is the packet-level image of
the byte-level `readPacket` above. -/

/-- The response interpretation of `get_image` (scan.py lines 123-143,
identical logic in the other classes): True exactly on an Ack packet with a
nonempty payload whose first byte is FINGERPRINT_OK; the NoFinger,
ImageFail and unknown-code branches all return False, as does a failed
read (where packet_type is None). -/
def get_image (r : Option (Nat × List Nat)) : Bool :=
  match r with
  | some (packet_type, data) =>
    if packet_type = FINGERPRINT_ACKPACKET ∧ data ≠ [] then
      if data.headD 0 = FINGERPRINT_OK then true
      else if data.headD 0 = FINGERPRINT_NOFINGER then false
      else if data.headD 0 = FINGERPRINT_IMAGEFAIL then false
      else false
    else false
  | none => false

/-- The response interpretation of `image_2_template` (scan.py lines
145-163): True exactly on an Ok Ack; the ImageMess, FeatureFail and
unknown-code branches return False. -/
def image_2_template (r : Option (Nat × List Nat)) : Bool :=
  match r with
  | some (packet_type, data) =>
    if packet_type = FINGERPRINT_ACKPACKET ∧ data ≠ [] then
      if data.headD 0 = FINGERPRINT_OK then true
      else if data.headD 0 = FINGERPRINT_IMAGEMESS then false
      else if data.headD 0 = FINGERPRINT_FEATUREFAIL then false
      else false
    else false
  | none => false

/-- The response interpretation of `match_templates` (finger_match.py lines
205-220): on an Ack with at least 3 payload bytes, status Ok yields
(True, confidence) with the confidence unpacked big-endian from payload
bytes 1 and 2; status NoMatch yields (False, 0); and the final else branch
for any other status also yields (False, 0).  Anything that is not such an
Ack yields (False, 0) at the function tail. -/
def match_templates (r : Option (Nat × List Nat)) : Bool × Nat :=
  match r with
  | some (packet_type, data) =>
    if packet_type = FINGERPRINT_ACKPACKET ∧ 3 ≤ data.length then
      if data.headD 0 = FINGERPRINT_OK then
        (true, be2 (data.getD 1 0) (data.getD 2 0))
      else if data.headD 0 = FINGERPRINT_NOMATCH then (false, 0)
      else (false, 0)
    else (false, 0)
  | none => (false, 0)

/-! ## Capture retry loops -/

/-- The capture for-loop of `scan_and_store_template` (scan.py lines
205-214): for each attempt, write one CaptureImage command and call
`get_image`; break on success, otherwise sleep 0.5 s and try the next
attempt; when the range is exhausted the for-else reports failure.  `reads`
gives the `_read_packet` results by call index, `i` is the index of the
next read, and the second pattern argument counts the remaining attempts.
Returns the list of command payloads written (one `[CMD_GET_IMAGE]` per
attempt made) and the success flag. -/
def captureLoop (reads : Nat → Option (Nat × List Nat)) :
    Nat → Nat → List (List Nat) × Bool
  | _, 0 => ([], false)
  | i, m + 1 =>
    if get_image (reads i) then ([[CMD_GET_IMAGE]], true)
    else
      let (sent, ok) := captureLoop reads (i + 1) m
      ([CMD_GET_IMAGE] :: sent, ok)

/-- The capture phase of `scan_and_store_template` with its hard-coded
`max_attempts = 10`; when the returned flag is False the for-else makes
`scan_and_store_template` return False immediately. -/
def scanCapture (reads : Nat → Option (Nat × List Nat)) :
    List (List Nat) × Bool :=
  captureLoop reads 0 10

/-- The attempt for-loop of `authenticate_user_with_template`
(finger_match.py lines 332-358), entered after the stored template was
downloaded: per attempt, `get_image` (one read); on failure sleep and
continue; then `image_2_template(buffer_id=2)` (one read); on failure sleep
and continue; then `match_templates` (one read); a match returns
(True, confidence), otherwise sleep and continue.  After the last attempt
the function returns (False, 0).  Returns the command payloads written and
the (matched, confidence) outcome. -/
def authLoop (reads : Nat → Option (Nat × List Nat)) :
    Nat → Nat → List (List Nat) × (Bool × Nat)
  | _, 0 => ([], (false, 0))
  | i, m + 1 =>
    if ¬ get_image (reads i) then
      let (sent, res) := authLoop reads (i + 1) m
      ([CMD_GET_IMAGE] :: sent, res)
    else if ¬ image_2_template (reads (i + 1)) then
      let (sent, res) := authLoop reads (i + 2) m
      ([CMD_GET_IMAGE] :: [CMD_IMG_2_TZ, 2] :: sent, res)
    else
      match match_templates (reads (i + 2)) with
      | (true, confidence) =>
        ([[CMD_GET_IMAGE], [CMD_IMG_2_TZ, 2], [CMD_MATCH]], (true, confidence))
      | (false, _) =>
        let (sent, res) := authLoop reads (i + 3) m
        ([CMD_GET_IMAGE] :: [CMD_IMG_2_TZ, 2] :: [CMD_MATCH] :: sent, res)

/-- When no read ever satisfies `get_image`, the capture loop makes one
attempt per remaining slot — writing one CaptureImage command each — and
ends in failure. -/
theorem captureLoop_const_false (reads : Nat → Option (Nat × List Nat))
    (h : ∀ j, get_image (reads j) = false) :
    ∀ m i, captureLoop reads i m = (List.replicate m [CMD_GET_IMAGE], false) := by
  intro m
  induction m with
  | zero => intro i; rfl
  | succ m ih =>
    intro i
    simp [captureLoop, h i, ih (i + 1), List.replicate_succ]

/-- When no read ever satisfies `get_image`, the authentication loop
likewise makes one capture attempt per slot and returns (False, 0). -/
theorem authLoop_const_false (reads : Nat → Option (Nat × List Nat))
    (h : ∀ j, get_image (reads j) = false) :
    ∀ m i, authLoop reads i m = (List.replicate m [CMD_GET_IMAGE], (false, 0)) := by
  intro m
  induction m with
  | zero => intro i; rfl
  | succ m ih =>
    intro i
    simp [authLoop, h i, ih (i + 1), List.replicate_succ]

/-! ## capture_and_get_template (finger_match.py lines 252-325)

Unlike every other call site, this method does NOT destructure the tuple
returned by `_read_packet`.  It binds the whole tuple:
  ack_packet = self._read_packet()
  if ack_packet and len(ack_packet) > 0 and ack_packet[0] == FINGERPRINT_OK:
and later
  data_packet = self._read_packet()
  if data_packet is None: break
  if isinstance(data_packet, bytes) and len(data_packet) > 0: ...
The Python-semantics facts about those tests are captured by the three
helper definitions below. -/

/-- `ack_packet and len(ack_packet) > 0 and ack_packet[0] == FINGERPRINT_OK`:
`_read_packet` always returns a 2-tuple, which is truthy and has len 2, so
the test reduces to its last conjunct — comparing `ack_packet[0]`, i.e. the
PACKET TYPE (or None after a failed read), against the status code 0x00.
`None == 0` is False in Python, so the none case is false. -/
def ackFirstIsOk : Option (Nat × List Nat) → Bool
  | some (packet_type, _) => packet_type == FINGERPRINT_OK
  | none => false

/-- `data_packet is None`: `_read_packet` returns a freshly built 2-tuple on
every path — (None, None) on failure — and a tuple is never the None
object, so this test is False for every possible result. -/
def tupleIsNone : Option (Nat × List Nat) → Bool := fun _ => false

/-- `isinstance(data_packet, bytes)`: the result of `_read_packet` is a
tuple, never a bytes object, so this test is False for every possible
result. -/
def tupleIsBytes : Option (Nat × List Nat) → Bool := fun _ => false

/-- The inner packet-reading while-loop of `capture_and_get_template`
(finger_match.py lines 277-304):
  while packet_count < 20 and len(template_data) < expected_size:
      data_packet = self._read_packet()
      if data_packet is None: break
      if isinstance(data_packet, bytes) and len(data_packet) > 0:
          template_data += data_packet; packet_count += 1; ...
      else: break
Fuel is 20 - packet_count; `acc` is template_data.  The recursive branch is
the isinstance branch, which `tupleIsBytes` makes unreachable, so its
accumulation (whose value has no bytes meaning for a tuple) is modelled as
keeping `acc`.  Returns the accumulated template_data and the index of the
next unconsumed read. -/
def readTemplateLoop (reads : Nat → Option (Nat × List Nat)) :
    Nat → Nat → List Nat → List Nat × Nat
  | 0, i, acc => (acc, i)
  | fuel + 1, i, acc =>
    if acc.length < EXPECTED_TEMPLATE_SIZE then
      if tupleIsNone (reads i) then (acc, i + 1)
      else if tupleIsBytes (reads i) then
        readTemplateLoop reads fuel (i + 1) acc
      else (acc, i + 1)
    else (acc, i)

/-- The attempt for-loop of `capture_and_get_template` (max_attempts = 5 in
the source; the remaining-attempt count is the second pattern argument):
per attempt, `get_image` (one read), continue on failure; then
`image_2_template(buffer_id=1)` (one read), continue on failure; then the
UploadTemplate command is written and `ack_packet = _read_packet()` (one
read) is tested by `ackFirstIsOk`; if it fails, continue.  Otherwise the
inner loop reads packets; if the accumulated data reaches 200 bytes the
method returns (True, normalized template), else continue.  When the
attempts are exhausted it returns (False, None). -/
def captureTemplateLoop (reads : Nat → Option (Nat × List Nat)) :
    Nat → Nat → Bool × Option (List Nat)
  | _, 0 => (false, none)
  | i, m + 1 =>
    if ¬ get_image (reads i) then captureTemplateLoop reads (i + 1) m
    else if ¬ image_2_template (reads (i + 1)) then
      captureTemplateLoop reads (i + 2) m
    else if ackFirstIsOk (reads (i + 2)) then
      let (template_data, i') := readTemplateLoop reads 20 (i + 3) []
      if 200 ≤ template_data.length then
        (true, some (normalizeTemplate template_data))
      else captureTemplateLoop reads i' m
    else captureTemplateLoop reads (i + 3) m

/-- `capture_and_get_template` after a successful connect: the attempt loop
with the hard-coded max_attempts = 5, started at the first read. -/
def capture_and_get_template (reads : Nat → Option (Nat × List Nat)) :
    Bool × Option (List Nat) :=
  captureTemplateLoop reads 0 5

/-- The inner reading loop never accumulates anything: the very first
iteration falls through both constant-false tuple tests into the
else-break, returning template_data = b'' after one read. -/
theorem readTemplateLoop_nil (reads : Nat → Option (Nat × List Nat))
    (i : Nat) : readTemplateLoop reads 20 i [] = ([], i + 1) := by
  simp [readTemplateLoop, tupleIsNone, tupleIsBytes, EXPECTED_TEMPLATE_SIZE]

/-- Every attempt of the loop ends in continue — in particular the
success return, which needs at least 200 accumulated bytes, is
unreachable — so the loop always exhausts its attempts and yields
(False, None), whatever the sensor responses are. -/
theorem captureTemplateLoop_fails (reads : Nat → Option (Nat × List Nat)) :
    ∀ m i, captureTemplateLoop reads i m = (false, none) := by
  intro m
  induction m with
  | zero => intro i; rfl
  | succ m ih =>
    intro i
    simp only [captureTemplateLoop, readTemplateLoop_nil]
    by_cases h1 : get_image (reads i)
    · by_cases h2 : image_2_template (reads (i + 1))
      · by_cases h3 : ackFirstIsOk (reads (i + 2))
        · simp [h1, h2, h3, ih]
        · simp [h1, h2, h3, ih]
      · simp [h1, h2, ih]
    · simp [h1, ih]

/-! ## Helper lemmas for the transfer claims -/

/-- The upload accumulation loop on a stream of Data frames followed by one
EndOfData frame returns the accumulator followed by every payload in
order — a verbatim concatenation, with no normalization. -/
theorem uploadLoop_spec (ds : List (List Nat)) :
    ∀ (acc e : List Nat),
      uploadLoop ((ds.map fun d => some (FINGERPRINT_DATAPACKET, d)) ++
          [some (FINGERPRINT_ENDDATAPACKET, e)]) acc
        = some (acc ++ ds.flatten ++ e) := by
  induction ds with
  | nil =>
    intro acc e
    simp [uploadLoop, FINGERPRINT_DATAPACKET, FINGERPRINT_ENDDATAPACKET]
  | cons d ds ih =>
    intro acc e
    simp [uploadLoop, ih (acc ++ d) e, List.append_assoc]

/-- The pad/truncate normalization inside `capture_and_get_template` always
yields exactly EXPECTED_TEMPLATE_SIZE bytes. -/
theorem normalizeTemplate_length (t : List Nat) :
    (normalizeTemplate t).length = EXPECTED_TEMPLATE_SIZE := by
  unfold normalizeTemplate
  by_cases h1 : EXPECTED_TEMPLATE_SIZE < t.length
  · simp [h1]; omega
  · by_cases h2 : t.length < EXPECTED_TEMPLATE_SIZE
    · simp [h1, h2]; omega
    · simp [h1, h2]; omega

/-- Chunking a buffer whose length is a positive exact multiple of 128:
the final chunk is a full 128-byte chunk and is the one sent as EndOfData;
no empty EndOfData frame is ever produced. -/
theorem chunkGo_exact (n : Nat) :
    ∀ fuel, 0 < n → 128 * n ≤ fuel →
      chunkGo fuel (List.replicate (128 * n) 1)
        = List.replicate (n - 1) (FINGERPRINT_DATAPACKET, List.replicate 128 1)
          ++ [(FINGERPRINT_ENDDATAPACKET, List.replicate 128 1)] := by
  induction n with
  | zero => intro fuel h; omega
  | succ n ih =>
    intro fuel _ hfuel
    obtain ⟨f, rfl⟩ : ∃ f, fuel = f + 1 := ⟨fuel - 1, by omega⟩
    by_cases hn : n = 0
    · subst hn
      rw [chunkGo, if_neg (by simp), if_pos (by simp)]
      simp
    · have h1 : ¬ (List.replicate (128 * (n + 1)) (1 : Nat) = []) := by
        simp
      have h2 : ¬ ((List.replicate (128 * (n + 1)) (1 : Nat)).length ≤ 128) := by
        simp; omega
      rw [chunkGo, if_neg h1, if_neg h2, List.take_replicate, List.drop_replicate]
      rw [show min 128 (128 * (n + 1)) = 128 by omega]
      rw [show 128 * (n + 1) - 128 = 128 * n by ring_nf; omega]
      rw [ih f (by omega) (by omega)]
      rw [show n + 1 - 1 = (n - 1) + 1 by omega]
      simp [List.replicate_succ]

/-! ## Claims -/

set_option maxRecDepth 8000 in
/-- C1, counterexample: the claim quantifies over every payload of length
within the protocol maximum (length field below 65536, so up to 65533
payload bytes), but for a 256-byte payload of 0xFF bytes — well inside
that maximum — `_write_packet` produces no frame at all: the unreduced
checksum 1 + 258 + 65280 = 65539 exceeds 65535 and struct.pack(">H")
raises struct.error.  No encoded frame exists, so decoding an encoded
frame cannot return this (type, payload). -/
theorem c1_counterexample :
    (List.replicate 256 255).length + 2 < 65536 ∧
    writePacket defaultAddress FINGERPRINT_COMMANDPACKET
      (List.replicate 256 255) = none := by
  constructor
  · decide
  · decide

/-- C1, amended: whenever `_write_packet` does produce a frame, reading
that frame back with `_read_packet` yields exactly the original packet
type and payload (with any following bytes left unconsumed). -/
theorem c1_theorem (address packet_type : Nat) (payload frame rest : List Nat)
    (h : writePacket address packet_type payload = some frame) :
    readPacket (frame ++ rest) = (some (packet_type, payload), rest) := by
  unfold writePacket at h
  split at h
  case isFalse => exact absurd h (by simp)
  case isTrue hg =>
    injection h with h'
    subst h'
    have hl : be2 ((payload.length + 2) / 256) ((payload.length + 2) % 256)
        = payload.length + 2 := by
      simpa [be2] using Nat.div_add_mod (payload.length + 2) 256
    have := readPacket_frame_core (address / 16777216) (address / 65536 % 256)
      (address / 256 % 256) (address % 256) packet_type
      ((payload.length + 2) / 256) ((payload.length + 2) % 256)
      ((packet_type + (payload.length + 2) + payload.sum) / 256)
      ((packet_type + (payload.length + 2) + payload.sum) % 256)
      payload rest hl
    simpa [pack2, pack4, FINGERPRINT_STARTCODE, List.cons_append,
      List.nil_append, List.append_assoc] using this

/-- C1, witness: a concrete encodo-decode round trip. -/
theorem c1_witness :
    readPacket ([239, 1, 255, 255, 255, 255, 1, 0, 3, 1, 0, 5] ++ [9])
      = (some (1, [1]), [9]) :=
  c1_theorem 4294967295 1 [1] [239, 1, 255, 255, 255, 255, 1, 0, 3, 1, 0, 5]
    [9] (by decide)

/-- C2, counterexample: `_write_packet` encodes the Ack-style frame with
payload b"\x00" as [239,1,255,255,255,255,7,0,3,0,0,10] (checksum 10).
Flipping the lowest bit of the payload byte (0x00 to 0x01) invalidates the
stored checksum — the recomputed sum over the delivered frame is
7 + 3 + 1 = 11, not 10 — yet `_read_packet` accepts the frame and delivers
(Ack, b"\x01") to the caller: the mismatch is neither detected nor
surfaced as any corrupt-transaction error, because the checksum bytes are
stripped unverified. -/
theorem c2_counterexample :
    writePacket defaultAddress FINGERPRINT_ACKPACKET [0]
      = some [239, 1, 255, 255, 255, 255, 7, 0, 3, 0, 0, 10] ∧
    readPacket [239, 1, 255, 255, 255, 255, 7, 0, 3, 1, 0, 10]
      = (some (7, [1]), []) ∧
    7 + 3 + 1 ≠ be2 0 10 := by
  refine ⟨by decide, by decide, by decide⟩

/-- C2, amended: `_read_packet` performs no checksum verification at all —
a frame carrying ANY two trailing checksum bytes c0, c1 is accepted and
its payload delivered, and two frames that differ only in those two bytes
produce identical results. -/
theorem c2_theorem (a0 a1 a2 a3 packet_type c0 c1 d0 d1 : Nat)
    (payload rest : List Nat) :
    readPacket (0xEF :: 0x01 :: a0 :: a1 :: a2 :: a3 :: packet_type ::
        pack2 (payload.length + 2) ++ payload ++ c0 :: c1 :: rest)
      = (some (packet_type, payload), rest) ∧
    readPacket (0xEF :: 0x01 :: a0 :: a1 :: a2 :: a3 :: packet_type ::
        pack2 (payload.length + 2) ++ payload ++ c0 :: c1 :: rest)
      = readPacket (0xEF :: 0x01 :: a0 :: a1 :: a2 :: a3 :: packet_type ::
        pack2 (payload.length + 2) ++ payload ++ d0 :: d1 :: rest) := by
  constructor
  · exact readPacket_frame a0 a1 a2 a3 packet_type c0 c1 payload rest
  · rw [readPacket_frame a0 a1 a2 a3 packet_type c0 c1 payload rest,
      readPacket_frame a0 a1 a2 a3 packet_type d0 d1 payload rest]

/-- C8, counterexample: a frame whose 4-byte address field is 0x00000000 —
different from the configured default device address 0xFFFFFFFF — is
decoded and delivered by `_read_packet` rather than rejected: the code
only checks that 4 address bytes arrived and never compares their value
with self.address. -/
theorem c8_counterexample :
    readPacket [239, 1, 0, 0, 0, 0, 7, 0, 3, 0, 0, 10]
      = (some (7, [0]), []) ∧
    [0, 0, 0, 0] ≠ pack4 defaultAddress := by
  refine ⟨by decide, by decide⟩

/-- C8, amended: `_read_packet` requires only that 4 address bytes are
present; their value is irrelevant — a frame with any address bytes
a0..a3 is delivered, and two frames that differ only in the address field
produce identical results (note `readPacket` does not even take the
configured address as an input, mirroring the source, which never reads
self.address in `_read_packet`). -/
theorem c8_theorem (a0 a1 a2 a3 b0 b1 b2 b3 packet_type c0 c1 : Nat)
    (payload rest : List Nat) :
    readPacket (0xEF :: 0x01 :: a0 :: a1 :: a2 :: a3 :: packet_type ::
        pack2 (payload.length + 2) ++ payload ++ c0 :: c1 :: rest)
      = (some (packet_type, payload), rest) ∧
    readPacket (0xEF :: 0x01 :: a0 :: a1 :: a2 :: a3 :: packet_type ::
        pack2 (payload.length + 2) ++ payload ++ c0 :: c1 :: rest)
      = readPacket (0xEF :: 0x01 :: b0 :: b1 :: b2 :: b3 :: packet_type ::
        pack2 (payload.length + 2) ++ payload ++ c0 :: c1 :: rest) := by
  constructor
  · exact readPacket_frame a0 a1 a2 a3 packet_type c0 c1 payload rest
  · rw [readPacket_frame a0 a1 a2 a3 packet_type c0 c1 payload rest,
      readPacket_frame b0 b1 b2 b3 packet_type c0 c1 payload rest]

set_option maxRecDepth 8000 in
/-- C9, counterexample: encoding is not total and does not reduce the
checksum mod 65536.  For a well-formed 257-byte payload (every element a
byte, length far below the protocol maximum) the checksum sum
7 + 261 + 65535 = 65803 exceeds 65535, and `_write_packet` raises
struct.error instead of writing the mod-65536 value: no frame is
produced. -/
theorem c9_counterexample :
    (∀ b ∈ List.replicate 257 255, b < 256) ∧
    (List.replicate 257 255).length + 2 < 65536 ∧
    writePacket defaultAddress FINGERPRINT_ACKPACKET
      (List.replicate 257 255) = none := by
  refine ⟨by decide, by decide, by decide⟩

/-- C9, amended: whenever `_write_packet` succeeds, the two bytes at
offsets 7-8 of the frame are the big-endian length field
`len(payload) + 2`, the two trailing bytes are the big-endian checksum
`packet_type + (len(payload) + 2) + sum(payload)`, and that checksum value
coincides with its value mod 65536 (encoding only succeeds when the sum
fits 16 bits; larger sums raise struct.error instead of wrapping). -/
theorem c9_theorem (address packet_type : Nat) (payload frame : List Nat)
    (h : writePacket address packet_type payload = some frame) :
    (frame.drop 7).take 2 = pack2 (payload.length + 2) ∧
    frame.drop (9 + payload.length)
      = pack2 (packet_type + (payload.length + 2) + payload.sum) ∧
    packet_type + (payload.length + 2) + payload.sum
      = (packet_type + (payload.length + 2) + payload.sum) % 65536 := by
  unfold writePacket at h
  split at h
  case isFalse => exact absurd h (by simp)
  case isTrue hg =>
    injection h with h'
    subst h'
    refine ⟨?_, ?_, (Nat.mod_eq_of_lt hg.2.2.2).symm⟩
    · simp only [pack2, pack4, FINGERPRINT_STARTCODE, List.cons_append,
        List.nil_append, List.append_assoc]
      rfl
    · simp only [pack2, pack4, FINGERPRINT_STARTCODE, List.cons_append,
        List.nil_append, List.append_assoc]
      rw [← List.drop_drop payload.length 9]
      have h9 : List.drop 9 (61185 / 256 :: 61185 % 256 :: address / 16777216 ::
          address / 65536 % 256 :: address / 256 % 256 :: address % 256 ::
          packet_type :: (payload.length + 2) / 256 ::
          (payload.length + 2) % 256 ::
          (payload ++ [(packet_type + (payload.length + 2) + payload.sum) / 256,
            (packet_type + (payload.length + 2) + payload.sum) % 256]))
          = payload ++ [(packet_type + (payload.length + 2) + payload.sum) / 256,
            (packet_type + (payload.length + 2) + payload.sum) % 256] := rfl
      rw [h9, List.drop_left]

/-- C9, witness: concrete frame fields for payload b"\x01\x02". -/
theorem c9_witness :
    (([239, 1, 255, 255, 255, 255, 7, 0, 4, 1, 2, 0, 14] : List Nat).drop
        7).take 2 = pack2 (([1, 2] : List Nat).length + 2) ∧
    ([239, 1, 255, 255, 255, 255, 7, 0, 4, 1, 2, 0, 14] : List Nat).drop
        (9 + ([1, 2] : List Nat).length)
      = pack2 (7 + (([1, 2] : List Nat).length + 2) + ([1, 2] : List Nat).sum) ∧
    7 + (([1, 2] : List Nat).length + 2) + ([1, 2] : List Nat).sum
      = (7 + (([1, 2] : List Nat).length + 2) + ([1, 2] : List Nat).sum)
        % 65536 :=
  c9_theorem 4294967295 7 [1, 2]
    [239, 1, 255, 255, 255, 255, 7, 0, 4, 1, 2, 0, 14] (by decide)

set_option maxRecDepth 40000 in
/-- C3, counterexample: a template 50 bytes short of the expected 512
(462 bytes) is transferred by the download direction verbatim — the Ok-Ack
path of `download_template` emits chunk frames whose payloads concatenate
to exactly the 462 input bytes.  No trailing zero padding to 512 happens
anywhere in the transfer. -/
theorem c3_counterexample :
    download_template (some (FINGERPRINT_ACKPACKET, [FINGERPRINT_OK]))
        (List.replicate 462 1)
      = (chunkLoop (List.replicate 462 1), true) ∧
    (((chunkLoop (List.replicate 462 1)).map Prod.snd).flatten).length = 462 ∧
    462 ≠ EXPECTED_TEMPLATE_SIZE := by
  refine ⟨by decide, ?_, by decide⟩
  rw [chunkLoop_join]
  decide

/-- C3, amended: neither transfer direction normalizes.  The download
chunking carries any template verbatim; `upload_template` returns exactly
the concatenation of the received Data/EndOfData payloads; the only
pad/truncate-to-512 logic in the repository is the normalization inside
`capture_and_get_template` (which always produces exactly
EXPECTED_TEMPLATE_SIZE bytes, but sits outside the transfer functions and
is applied only to accumulations of at least 200 bytes). -/
theorem c3_theorem :
    (∀ t : List Nat, ((chunkLoop t).map Prod.snd).flatten = t) ∧
    (∀ (ds : List (List Nat)) (e : List Nat),
      upload_template (some (FINGERPRINT_ACKPACKET, [FINGERPRINT_OK]) ::
          ((ds.map fun d => some (FINGERPRINT_DATAPACKET, d)) ++
            [some (FINGERPRINT_ENDDATAPACKET, e)]))
        = some (ds.flatten ++ e)) ∧
    (∀ t : List Nat, (normalizeTemplate t).length = EXPECTED_TEMPLATE_SIZE) := by
  refine ⟨chunkLoop_join, ?_, normalizeTemplate_length⟩
  intro ds e
  rw [upload_template]
  rw [if_pos (by refine ⟨rfl, by simp, rfl⟩)]
  simpa using uploadLoop_spec ds [] e

set_option maxRecDepth 40000 in
/-- C4, counterexample: for a template whose length is an exact multiple of
128 (here 256 bytes) the loop does NOT send a 0-byte EndOfData frame after
the full Data frames; instead the final full 128-byte chunk itself is sent
as the EndOfData frame: the frames are one Data frame and one 128-byte
EndOfData frame, and the last frame is not (EndOfData, empty). -/
theorem c4_counterexample :
    chunkLoop (List.replicate 256 1)
      = [(FINGERPRINT_DATAPACKET, List.replicate 128 1),
         (FINGERPRINT_ENDDATAPACKET, List.replicate 128 1)] ∧
    (chunkLoop (List.replicate 256 1)).getLast?
      ≠ some (FINGERPRINT_ENDDATAPACKET, []) := by
  refine ⟨by decide, by decide⟩

set_option maxRecDepth 40000 in
/-- C4, amended: the loop sends all but the last chunk as Data frames and
the final chunk as a single EndOfData frame, where the final chunk is
never empty: a 600-byte template gives 4 Data frames of 128 bytes then one
88-byte EndOfData frame, in that order; an empty template sends no frames
at all; and a positive exact multiple of 128 gives full 128-byte Data
frames followed by one full 128-byte EndOfData frame. -/
theorem c4_theorem :
    chunkLoop (List.replicate 600 1)
      = List.replicate 4 (FINGERPRINT_DATAPACKET, List.replicate 128 1)
        ++ [(FINGERPRINT_ENDDATAPACKET, List.replicate 88 1)] ∧
    chunkLoop [] = [] ∧
    (∀ n : Nat, 0 < n →
      chunkLoop (List.replicate (128 * n) 1)
        = List.replicate (n - 1) (FINGERPRINT_DATAPACKET, List.replicate 128 1)
          ++ [(FINGERPRINT_ENDDATAPACKET, List.replicate 128 1)]) := by
  refine ⟨by decide, rfl, ?_⟩
  intro n hn
  have := chunkGo_exact n (List.replicate (128 * n) 1).length hn
    (by simp)
  simpa [chunkLoop] using this

/-- C4, witness: the exact-multiple clause at n = 1. -/
theorem c4_witness :
    chunkLoop (List.replicate (128 * 1) 1)
      = List.replicate (1 - 1) (FINGERPRINT_DATAPACKET, List.replicate 128 1)
        ++ [(FINGERPRINT_ENDDATAPACKET, List.replicate 128 1)] :=
  c4_theorem.2.2 1 (by decide)

/-- C5, counterexample: the capture loop of `scan_and_store_template` has
no terminal-status short-circuit.  With a stub sensor answering every
CaptureImage with the terminal status ImageTooMessy (0x06) from the first
attempt on, the workflow does not stop after 1 attempt: it performs all 10
configured attempts (10 CaptureImage commands) before failing. -/
theorem c5_counterexample :
    scanCapture (fun _ => some (FINGERPRINT_ACKPACKET, [FINGERPRINT_IMAGEMESS]))
      = (List.replicate 10 [CMD_GET_IMAGE], false) ∧
    (List.replicate 10 ([CMD_GET_IMAGE] : List Nat)).length ≠ 1 := by
  refine ⟨by decide, by decide⟩

/-- C5, amended: a terminal status is retried exactly like a recoverable
one — `get_image` folds every non-Ok status into the same False — so with
ImageTooMessy on every attempt the loop still performs all max_attempts
attempts (one CaptureImage command each) and only then fails. -/
theorem c5_theorem (reads : Nat → Option (Nat × List Nat))
    (tail : Nat → List Nat)
    (h : ∀ j, reads j
      = some (FINGERPRINT_ACKPACKET, FINGERPRINT_IMAGEMESS :: tail j))
    (m i : Nat) :
    captureLoop reads i m = (List.replicate m [CMD_GET_IMAGE], false) := by
  refine captureLoop_const_false reads ?_ m i
  intro j
  rw [h j]
  simp [get_image, FINGERPRINT_ACKPACKET, FINGERPRINT_IMAGEMESS,
    FINGERPRINT_OK, FINGERPRINT_NOFINGER, FINGERPRINT_IMAGEFAIL]

/-- C5, witness: ImageTooMessy on every attempt with max_attempts = 10. -/
theorem c5_witness :
    captureLoop
        (fun _ => some (FINGERPRINT_ACKPACKET, [FINGERPRINT_IMAGEMESS])) 0 10
      = (List.replicate 10 [CMD_GET_IMAGE], false) :=
  c5_theorem _ (fun _ => []) (fun _ => rfl) 10 0

/-- C6: when every read is a NoFingerPresent Ack, both capture-retry loops
in the cited sources — the capture for-loop of `scan_and_store_template`
(max_attempts = 10 there) and the attempt for-loop of
`authenticate_user_with_template` (max_attempts = 5 there) — perform
exactly max_attempts attempts, writing one CaptureImage command per
attempt, and then yield their failure outcome (False, and (False, 0)
respectively).  The statement is generic in max_attempts `m` and in the
read position `i`. -/
theorem c6_theorem (reads : Nat → Option (Nat × List Nat))
    (tail : Nat → List Nat)
    (h : ∀ j, reads j
      = some (FINGERPRINT_ACKPACKET, FINGERPRINT_NOFINGER :: tail j))
    (m i : Nat) :
    captureLoop reads i m = (List.replicate m [CMD_GET_IMAGE], false) ∧
    authLoop reads i m = (List.replicate m [CMD_GET_IMAGE], (false, 0)) := by
  have hf : ∀ j, get_image (reads j) = false := by
    intro j
    rw [h j]
    simp [get_image, FINGERPRINT_ACKPACKET, FINGERPRINT_NOFINGER,
      FINGERPRINT_OK, FINGERPRINT_IMAGEFAIL]
  exact ⟨captureLoop_const_false reads hf m i, authLoop_const_false reads hf m i⟩

/-- C6, witness: always-NoFinger stub with max_attempts = 5. -/
theorem c6_witness :
    captureLoop
        (fun _ => some (FINGERPRINT_ACKPACKET, [FINGERPRINT_NOFINGER])) 0 5
      = (List.replicate 5 [CMD_GET_IMAGE], false) ∧
    authLoop
        (fun _ => some (FINGERPRINT_ACKPACKET, [FINGERPRINT_NOFINGER])) 0 5
      = (List.replicate 5 [CMD_GET_IMAGE], (false, 0)) :=
  c6_theorem _ (fun _ => []) (fun _ => rfl) 5 0

/-- C7, counterexample: a status other than Ok and NoMatch — here
PacketReceiveError (0x01) — does NOT yield a distinct failure outcome:
`match_templates` returns (False, 0) for it, exactly the same value as for
a NoMatch Ack, so the caller cannot tell the two apart. -/
theorem c7_counterexample :
    match_templates (some (FINGERPRINT_ACKPACKET,
        [FINGERPRINT_PACKETRECIEVEERR, 0, 5])) = (false, 0) ∧
    match_templates (some (FINGERPRINT_ACKPACKET,
        [FINGERPRINT_PACKETRECIEVEERR, 0, 5]))
      = match_templates (some (FINGERPRINT_ACKPACKET,
        [FINGERPRINT_NOMATCH, 0, 0])) := by
  refine ⟨by decide, by decide⟩

/-- C7, amended: on an Ack with at least 3 payload bytes, status Ok yields
(True, confidence) with the confidence parsed big-endian from the two
bytes after the status byte; EVERY other status — NoMatch and all others
alike — yields the single outcome (False, 0), with no distinct failure
value. -/
theorem c7_theorem (s c1 c2 : Nat) (rest : List Nat) :
    match_templates (some (FINGERPRINT_ACKPACKET,
        FINGERPRINT_OK :: c1 :: c2 :: rest)) = (true, 256 * c1 + c2) ∧
    (s ≠ FINGERPRINT_OK →
      match_templates (some (FINGERPRINT_ACKPACKET, s :: c1 :: c2 :: rest))
        = (false, 0)) := by
  constructor
  · simp [match_templates, be2, FINGERPRINT_ACKPACKET, FINGERPRINT_OK]
  · intro hs
    have hs0 : ¬ s = 0 := by simpa [FINGERPRINT_OK] using hs
    by_cases h8 : s = FINGERPRINT_NOMATCH
    · simp [match_templates, h8, FINGERPRINT_ACKPACKET, FINGERPRINT_OK,
        FINGERPRINT_NOMATCH]
    · have h8n : ¬ s = 8 := by simpa [FINGERPRINT_NOMATCH] using h8
      simp [match_templates, hs0, h8n, FINGERPRINT_ACKPACKET, FINGERPRINT_OK,
        FINGERPRINT_NOMATCH]

/-- C7, witness: an unknown status 0x15 gives the same (False, 0) as
NoMatch. -/
theorem c7_witness :
    match_templates (some (FINGERPRINT_ACKPACKET,
        21 :: 1 :: 44 :: ([] : List Nat))) = (false, 0) :=
  (c7_theorem 21 1 44 []).2 (by decide)

/-- C10: `capture_and_get_template` can never succeed: its Ack test
compares the packet type (0x07 for an Ack, None on a failed read) against
the status code Ok (0x00), and even when a malformed stream makes that
test pass, the inner reading loop compares the `_read_packet` tuple
against `None` and `bytes` — both constantly false for a tuple — so it
always breaks with an empty accumulation, which is below the 200-byte
minimum.  Hence for EVERY sequence of sensor responses the method exhausts
its 5 attempts and returns the failure result (False, no template). -/
theorem c10_theorem (reads : Nat → Option (Nat × List Nat)) :
    capture_and_get_template reads = (false, none) :=
  captureTemplateLoop_fails reads 5 0

end Biometric
